import Mathlib

/-
  Verification of the foodline-bot recognition-and-estimation pipeline.

  The definitions below are a shallow embedding of the TypeScript sources:
    * src/src/services/calorie.ts        (calorie estimator, 10 keyword rules)
    * src/api/webhook.ts                 (serverless handler; estimator copy with
                                          7 keyword rules; stubbed recognizer;
                                          event dispatcher and background pipeline)
    * src/unnamed/part_000               (Google Vision variant with local fallback)
    * src/unnamed/part_001               (Hugging Face variant with default fallbacks)
    * src/unnamed/part_002               (Hugging Face variant with forced test mode)

  Modelling conventions:
    * JS strings are Lean `String`; `toLowerCase`/`trim`/`includes` are modelled
      on the character list (ASCII case mapping and ASCII whitespace, which covers
      every string these sources manipulate).
    * JS numbers appearing as confidence scores are exact decimals, modelled as ℚ.
    * Image buffers are byte lists (`List Nat`); only their contents/length flow
      into the modelled logic.
    * Fallible external calls (axios, LINE SDK, Google auth) are oracles passed
      as explicit parameters; a JS `throw` is `Except.error`, a `try/catch` is a
      `match` on the `Except` of the body.
-/

/-- A byte buffer (Node `Buffer`), as the list of its bytes. -/
def Buffer : Type := List Nat

/-- `listStartsWith l pat` is true when `pat` is an initial segment of `l`. -/
def listStartsWith : List Char → List Char → Bool
  | _, [] => true
  | [], _ :: _ => false
  | a :: as, b :: bs => a == b && listStartsWith as bs

/-- `listContains pat l` is true when `pat` occurs contiguously inside `l`. -/
def listContains (pat : List Char) : List Char → Bool
  | [] => listStartsWith [] pat
  | c :: cs => listStartsWith (c :: cs) pat || listContains pat cs

/-- JS `s.includes(pat)`. -/
def strIncludes (s pat : String) : Bool :=
  listContains pat.data s.data

/-- ASCII whitespace, the only whitespace appearing in these sources. -/
def isWsChar (c : Char) : Bool :=
  c == ' ' || c == '\t' || c == '\n' || c == '\r'

/-- Strip `isWsChar` characters from both ends (JS `trim` on ASCII input). -/
def trimList (l : List Char) : List Char :=
  ((l.dropWhile isWsChar).reverse.dropWhile isWsChar).reverse

/-- JS `toLowerCase().trim()` as performed on a food label. -/
def jsNormalize (s : String) : String :=
  String.mk (trimList (s.data.map Char.toLower))

/-- JS `(score * 100).toFixed(1)` for a non-negative exact-decimal score:
round `score * 100` to one decimal (half away from zero) and print the result
with exactly one digit after the point. Computed exactly over ℤ:
`round(score*1000) = ⌊(2000·num + den) / (2·den)⌋`. -/
def jsPercent1 (score : ℚ) : String :=
  let n : Nat := ((2000 * score.num + (score.den : Int)) / (2 * (score.den : Int))).toNat
  toString (n / 10) ++ "." ++ toString (n % 10)

/-- `CalorieEstimation` record of calorie.ts / webhook.ts. -/
structure CalorieEstimation where
  foodName : String
  estimatedCalories : Nat
  unit : String
deriving DecidableEq, Repr

/-- `FOOD_CALORIE_TABLE`: identical constant in calorie.ts, webhook.ts,
part_000 and part_001. -/
def FOOD_CALORIE_TABLE : List (String × Nat) :=
  [("apple", 95), ("banana", 105), ("rice", 200), ("bread", 80),
   ("fried chicken", 320), ("hamburger", 500), ("pizza", 285),
   ("salad", 150), ("noodles", 250), ("sushi", 50)]

/-- `FOOD_CALORIE_TABLE[k]`, `!= null` test refined into an `Option`. -/
def tableLookup (k : String) : Option Nat :=
  (FOOD_CALORIE_TABLE.find? (fun p => p.1 == k)).map (fun p => p.2)

/-- One entry of the `keywordToFood` list. -/
structure KeywordPair where
  keywords : List String
  food : String
deriving DecidableEq, Repr

/-- `keywordToFood` of src/src/services/calorie.ts (10 rules). -/
def keywordToFood : List KeywordPair :=
  [⟨["rice", "risotto"], "rice"⟩,
   ⟨["bread", "toast", "bun"], "bread"⟩,
   ⟨["noodle", "spaghetti", "ramen", "udon"], "noodles"⟩,
   ⟨["burger"], "hamburger"⟩,
   ⟨["pizza"], "pizza"⟩,
   ⟨["sushi"], "sushi"⟩,
   ⟨["salad"], "salad"⟩,
   ⟨["chicken"], "fried chicken"⟩,
   ⟨["apple"], "apple"⟩,
   ⟨["banana"], "banana"⟩]

/-- `keywordToFood` of api/webhook.ts, part_000 and part_001 (7 rules:
no bread, sushi or salad rules). -/
def keywordToFoodApi : List KeywordPair :=
  [⟨["rice", "risotto"], "rice"⟩,
   ⟨["noodle", "spaghetti", "ramen", "udon"], "noodles"⟩,
   ⟨["burger"], "hamburger"⟩,
   ⟨["pizza"], "pizza"⟩,
   ⟨["chicken"], "fried chicken"⟩,
   ⟨["apple"], "apple"⟩,
   ⟨["banana"], "banana"⟩]

/-- `pair.keywords.some(k => normalized.includes(k))`. -/
def keywordHit (normalized : String) (p : KeywordPair) : Bool :=
  p.keywords.any (fun k => strIncludes normalized k)

/-- `estimateCalories`, parameterized by the keyword rule list (the only
difference between the calorie.ts copy and the webhook copies). Mirrors the
source: normalize, exact table lookup, first matching keyword rule
(`for` + `some` = `List.find?`), else the `normalized || "food"` default. -/
def estimateCaloriesWith (rules : List KeywordPair) (foodLabelRaw : String) :
    CalorieEstimation :=
  let normalized := jsNormalize foodLabelRaw
  match tableLookup normalized with
  | some v => ⟨normalized, v, "kcal"⟩
  | none =>
    match rules.find? (keywordHit normalized) with
    | some pair => ⟨pair.food, (tableLookup pair.food).getD 200, "kcal"⟩
    | none => ⟨if normalized == "" then "food" else normalized, 200, "kcal"⟩

/-- `estimateCalories` of src/src/services/calorie.ts. -/
def estimateCalories (foodLabelRaw : String) : CalorieEstimation :=
  estimateCaloriesWith keywordToFood foodLabelRaw

/-- `estimateCalories` of api/webhook.ts (shared by part_000/part_001). -/
def estimateCaloriesApi (foodLabelRaw : String) : CalorieEstimation :=
  estimateCaloriesWith keywordToFoodApi foodLabelRaw


/-- `FoodRecognitionResult` record, shared by every recognizer variant. -/
structure FoodRecognitionResult where
  label : String
  score : ℚ
deriving DecidableEq, Repr

/-- The environment variables the recognizers read. A variable is either unset
(`none`) or set to a string (possibly empty, which JS treats as falsy). -/
structure Env where
  hfApiKey : Option String
  visionTestMode : Option String
deriving DecidableEq, Repr

/-- JS truthiness of a `string | undefined` environment variable. -/
def jsTruthyStr : Option String → Bool
  | none => false
  | some s => !(s == "")

/-- `recognizeFoodFromImage` of src/api/webhook.ts: skip when the key is
falsy; return the fixed test result when `VISION_TEST_MODE === "true"`;
otherwise `return null` (the real API call was removed). Makes no network
call, so it takes no network oracle. -/
def recognizeFoodFromImage_api (env : Env) (_imageBuffer : Buffer) :
    Option FoodRecognitionResult :=
  if !(jsTruthyStr env.hfApiKey) then none
  else if env.visionTestMode == some "true" then
    some ⟨"ramen noodles", mkRat 85 100⟩
  else none

/-- Outcome of one Hugging Face inference POST (part_001/part_002):
`throw` is any axios failure (network error, timeout, non-2xx);
`ok none` is a 2xx whose body is not an array; `ok (some items)` is a 2xx
whose body is an array of label/score objects. -/
inductive HFNet where
  | throw : HFNet
  | ok : Option (List FoodRecognitionResult) → HFNet
deriving DecidableEq

/-- The `try` block of `recognizeFoodFromImage` in src/unnamed/part_002:
POST, then take `data[0]` when the body is a non-empty array, else the
compat check (same outcome under this response model), else `return null`. -/
def part002_try (net : HFNet) : Except Unit (Option FoodRecognitionResult) :=
  match net with
  | HFNet.throw => Except.error ()
  | HFNet.ok none => Except.ok none
  | HFNet.ok (some []) => Except.ok none
  | HFNet.ok (some (top :: _)) => Except.ok (some top)

/-- `recognizeFoodFromImage` of src/unnamed/part_002. Note that the test-mode guard in the source is `process.env.VISION_TEST_MODE === "true" || true`, kept
verbatim. The `catch` returns `null`. -/
def recognize_part002 (env : Env) (_imageBuffer : Buffer) (net : HFNet) :
    Except Unit (Option FoodRecognitionResult) :=
  if !(jsTruthyStr env.hfApiKey) then Except.ok none
  else if (env.visionTestMode == some "true") || true then
    Except.ok (some ⟨"ramen noodles", mkRat 85 100⟩)
  else
    match part002_try net with
    | Except.ok v => Except.ok v
    | Except.error _ => Except.ok none

/-- The `try` block of `recognizeFoodFromImage` in src/unnamed/part_001:
take `data[0]` when the body is a non-empty array, otherwise the default
`{label: "food", score: 0.7}`. -/
def part001_try (net : HFNet) : Except Unit (Option FoodRecognitionResult) :=
  match net with
  | HFNet.throw => Except.error ()
  | HFNet.ok (some (top :: _)) => Except.ok (some top)
  | HFNet.ok _ => Except.ok (some ⟨"food", mkRat 7 10⟩)

/-- `recognizeFoodFromImage` of src/unnamed/part_001. The `catch` returns
the default `{label: "unknown food", score: 0.5}`. -/
def recognize_part001 (env : Env) (_imageBuffer : Buffer) (net : HFNet) :
    Except Unit (Option FoodRecognitionResult) :=
  if !(jsTruthyStr env.hfApiKey) then Except.ok none
  else
    match part001_try net with
    | Except.ok v => Except.ok v
    | Except.error _ => Except.ok (some ⟨"unknown food", mkRat 1 2⟩)

/-- One Google Vision label annotation (src/unnamed/part_000). -/
structure GLabel where
  description : String
  score : ℚ
deriving DecidableEq

/-- Outcome of the Google Vision pipeline inside the part_000 `try` block:
`throw` is any exception (credential JSON.parse, auth, axios failure, or a
malformed response making `responses[0].labelAnnotations` blow up);
`ok labels` is a well-formed annotation list. -/
inductive GNet where
  | throw : GNet
  | ok : List GLabel → GNet
deriving DecidableEq

/-- `foodKeywords` constant of src/unnamed/part_000. -/
def foodKeywords : List String :=
  ["food", "dish", "meal", "cuisine", "restaurant", "cooking",
   "ramen", "noodles", "hamburger", "pizza", "rice", "sushi",
   "salad", "sandwich", "steak", "chicken", "fish", "meat",
   "vegetable", "fruit", "bread", "pasta", "soup", "burger",
   "fast food", "junk food", "snack", "dessert", "cake", "cookie"]

/-- JS `c.toLowerCase()` on a whole string (ASCII case mapping). -/
def jsToLower (s : String) : String :=
  String.mk (s.data.map Char.toLower)

/-- The first loop of part_000: best-scoring annotation whose lowercased text
contains a food keyword, starting from `("unknown food", 0.5)`. -/
def bestFoodScan (labels : List GLabel) : String × ℚ :=
  labels.foldl
    (fun acc l =>
      let labelText := jsToLower l.description
      if foodKeywords.any (fun k => strIncludes labelText k) then
        if l.score > acc.2 then (labelText, l.score) else acc
      else acc)
    ("unknown food", mkRat 1 2)

/-- `labels.some(l => l.description.toLowerCase().includes(kw))`. -/
def hasLabelWith (labels : List GLabel) (kw : String) : Bool :=
  labels.any (fun l => strIncludes (jsToLower l.description) kw)

/-- The part_000 dish list used when tableware and ingredient labels are seen. -/
def foodOptionsFull : List String :=
  ["hamburger", "pizza", "ramen noodles", "rice bowl", "sandwich"]

/-- The part_000 dish list used in the remaining derived-guess branch. -/
def foodOptionsBasic : List String :=
  ["hamburger", "pizza", "ramen noodles", "rice", "sushi"]

/-- `Math.floor((imageSize % 100000) / 10000) % len`. -/
def sizeIndex (imageSize len : Nat) : Nat :=
  ((imageSize % 100000) / 10000) % len

/-- The `try` block of `recognizeFoodFromImage` in src/unnamed/part_000:
keyword-filtered best label, then the derived-guess branch when only a
generic label was found. -/
def part000_try (imageBuffer : Buffer) (net : GNet) :
    Except Unit (Option FoodRecognitionResult) :=
  match net with
  | GNet.throw => Except.error ()
  | GNet.ok labels =>
    let best := bestFoodScan labels
    if best.1 == "food" || best.1 == "unknown food" then
      let imageSize := imageBuffer.length
      if hasLabelWith labels "soup" then
        Except.ok (some ⟨"soup", mkRat 92 100⟩)
      else if hasLabelWith labels "stew" then
        Except.ok (some ⟨"stew", mkRat 88 100⟩)
      else if hasLabelWith labels "tableware" && hasLabelWith labels "ingredient" then
        Except.ok (some ⟨foodOptionsFull.getD (sizeIndex imageSize foodOptionsFull.length)
          "hamburger", mkRat 85 100⟩)
      else
        Except.ok (some ⟨foodOptionsBasic.getD (sizeIndex imageSize foodOptionsBasic.length)
          "hamburger", mkRat 80 100⟩)
    else
      Except.ok (some ⟨best.1, best.2⟩)

/-- The part_000 `catch` fallback list of labeled dishes with their fixed
placeholder confidences. -/
def fallbackFoodOptions : List FoodRecognitionResult :=
  [⟨"ramen noodles", mkRat 85 100⟩, ⟨"hamburger", mkRat 88 100⟩,
   ⟨"pizza", mkRat 91 100⟩, ⟨"rice", mkRat 82 100⟩, ⟨"sushi", mkRat 89 100⟩]

/-- The part_000 `catch` branch: select a fallback dish from the byte length. -/
def part000_catch (imageBuffer : Buffer) : Option FoodRecognitionResult :=
  some (fallbackFoodOptions.getD
    (sizeIndex imageBuffer.length fallbackFoodOptions.length)
    ⟨"ramen noodles", mkRat 85 100⟩)

/-- `recognizeFoodFromImage` of src/unnamed/part_000. The credential check
happens inside the `try` (a bad or missing `GOOGLE_VISION_API_KEY` surfaces
as a thrown error), so the oracle `net` alone decides which branch runs. -/
def recognize_part000 (imageBuffer : Buffer) (net : GNet) :
    Except Unit (Option FoodRecognitionResult) :=
  match part000_try imageBuffer net with
  | Except.ok v => Except.ok v
  | Except.error _ => Except.ok (part000_catch imageBuffer)

deriving instance DecidableEq for Except


/-
  Event dispatcher of src/api/webhook.ts (POST path, LINE client configured,
  signature already verified by the middleware collaborator).

  The fire-and-forget background task of an image event is executed at its
  spawn point in the model; this preserves exactly which messages each event
  delivers and keeps the HTTP status independent of the background outcome,
  which is all the claims quantify over (no claim concerns cross-event
  interleaving in time).
-/

/-- One inbound LINE webhook event, with the fields the handler reads. -/
structure RecEvent where
  etype : String
  mtype : String
  replyToken : String
  text : String
  messageId : String
  userId : Option String
deriving DecidableEq, Repr

/-- A message delivered through the LINE client. -/
inductive Sent where
  | reply : String → String → Sent
  | push : String → String → Sent
deriving DecidableEq, Repr

/-- Oracles for the fallible outbound calls the handler makes:
whether a `replyMessage`/`pushMessage` call succeeds (false = the awaited
call throws), and the image-content download result (`none` = the axios GET
throws). -/
structure World where
  replySucceeds : String → String → Bool
  pushSucceeds : String → String → Bool
  download : String → Option Buffer

/-- Acknowledgment reply sent for an image message. -/
def ackImageText : String := "收到你的圖片！我正在分析食物內容..."

/-- Push sent when the image download fails. -/
def downloadFailText : String := "抱歉，無法下載圖片內容，請稍後再試！"

/-- Push sent when recognition returns `null`. -/
def cannotRecognizeText : String :=
  "抱歉，我暫時無法從圖片辨識食物內容，請換張清晰的餐點照再試一次喔！"

/-- Echo reply for a text message. -/
def echoText (t : String) : String := "收到你的訊息：" ++ t

/-- The final result message of src/api/webhook.ts. -/
def resultText (c : CalorieEstimation) (score : ℚ) : String :=
  "我辨識到：" ++ c.foodName ++ "（信心 " ++ jsPercent1 score ++
    "%）\n估計熱量：約 " ++ toString c.estimatedCalories ++ " " ++ c.unit

/-- The detached background task of an image event: bail out without a
sender id; on download failure push the download-failure text (a failure of
that very push is absorbed by the outer catch of the task); otherwise recognize,
then push either the cannot-recognize text or the estimate. Total: every
failure path ends inside this task. -/
def backgroundImage (env : Env) (w : World) (e : RecEvent) : List Sent :=
  match e.userId with
  | none => []
  | some uid =>
    match w.download e.messageId with
    | none =>
      if w.pushSucceeds uid downloadFailText then [Sent.push uid downloadFailText]
      else []
    | some imageBuffer =>
      match recognizeFoodFromImage_api env imageBuffer with
      | none =>
        if w.pushSucceeds uid cannotRecognizeText then [Sent.push uid cannotRecognizeText]
        else []
      | some recognition =>
        let calorie := estimateCaloriesApi recognition.label
        let txt := resultText calorie recognition.score
        if w.pushSucceeds uid txt then [Sent.push uid txt] else []

/-- The synchronous part of handling one event inside the `for` loop:
a text echo reply, or an image acknowledgment reply followed by spawning
the background task. A failed awaited reply throws (`Except.error`) before
anything of this event is delivered. -/
def handleSync (env : Env) (w : World) (e : RecEvent) : Except Unit (List Sent) :=
  if e.etype == "message" then
    if e.mtype == "text" then
      if w.replySucceeds e.replyToken (echoText e.text) then
        Except.ok [Sent.reply e.replyToken (echoText e.text)]
      else Except.error ()
    else if e.mtype == "image" then
      if w.replySucceeds e.replyToken ackImageText then
        Except.ok (Sent.reply e.replyToken ackImageText :: backgroundImage env w e)
      else Except.error ()
    else Except.ok []
  else Except.ok []

/-- The `for (const event of events)` loop: stops at the first event whose
synchronous step throws (the whole loop sits in one `try`). Returns the
delivered messages and whether the loop ran to completion. -/
def processEvents (env : Env) (w : World) : List RecEvent → List Sent × Bool
  | [] => ([], true)
  | e :: rest =>
    match handleSync env w e with
    | Except.error _ => ([], false)
    | Except.ok s =>
      let r := processEvents env w rest
      (s ++ r.1, r.2)

/-- The POST branch of the webhook handler: 200 when the loop completes,
500 when the `catch` fires, together with the delivered messages. -/
def webhookPost (env : Env) (w : World) (events : List RecEvent) : Nat × List Sent :=
  let r := processEvents env w events
  (if r.2 then 200 else 500, r.1)

/-- The messages one event delivers when its synchronous step succeeds. -/
def eventDeliveries (env : Env) (w : World) (e : RecEvent) : List Sent :=
  match handleSync env w e with
  | Except.ok s => s
  | Except.error _ => []

/-- Whether the synchronous step of an event runs without throwing. -/
def syncOk (env : Env) (w : World) (e : RecEvent) : Bool :=
  match handleSync env w e with
  | Except.ok _ => true
  | Except.error _ => false

/- Supporting lemmas. -/

lemma charToLower_of_ws (c : Char) (h : isWsChar c = true) : Char.toLower c = c := by
  simp only [isWsChar, Bool.or_eq_true, beq_iff_eq] at h
  rcases h with ((h | h) | h) | h <;> subst h <;> decide

lemma dropWhile_ws_of_all (l : List Char) (h : ∀ c ∈ l, isWsChar c = true) :
    l.dropWhile isWsChar = [] := by
  induction l with
  | nil => rfl
  | cons a as ih =>
    have ha : isWsChar a = true := h a (List.mem_cons_self a as)
    rw [List.dropWhile_cons, ha, if_pos rfl]
    exact ih (fun c hc => h c (List.mem_cons_of_mem a hc))

lemma trimList_of_all_ws (l : List Char) (h : ∀ c ∈ l, isWsChar c = true) :
    trimList l = [] := by
  unfold trimList
  rw [dropWhile_ws_of_all l h]
  rfl

lemma jsNormalize_of_all_ws (raw : String) (h : ∀ c ∈ raw.data, isWsChar c = true) :
    jsNormalize raw = "" := by
  have hws : ∀ c ∈ raw.data.map Char.toLower, isWsChar c = true := by
    intro c hc
    rcases List.mem_map.mp hc with ⟨d, hd, rfl⟩
    rw [charToLower_of_ws d (h d hd)]
    exact h d hd
  unfold jsNormalize
  rw [trimList_of_all_ws _ hws]

lemma estimate_of_norm_empty (raw : String) (h : jsNormalize raw = "") :
    estimateCalories raw = ⟨"food", 200, "kcal"⟩ := by
  unfold estimateCalories estimateCaloriesWith
  rw [h]
  decide

lemma processEvents_of_all_syncOk (env : Env) (w : World) (evs : List RecEvent)
    (hall : ∀ e ∈ evs, syncOk env w e = true) :
    processEvents env w evs = ((evs.map (eventDeliveries env w)).flatten, true) := by
  induction evs with
  | nil => rfl
  | cons e rest ih =>
    have he : syncOk env w e = true := hall e (List.mem_cons_self e rest)
    have hrest : ∀ x ∈ rest, syncOk env w x = true :=
      fun x hx => hall x (List.mem_cons_of_mem e hx)
    unfold processEvents
    cases hh : handleSync env w e with
    | error u =>
      unfold syncOk at he
      rw [hh] at he
      cases he
    | ok s =>
      have hds : eventDeliveries env w e = s := by
        unfold eventDeliveries
        rw [hh]
      rw [ih hrest]
      show (s ++ (rest.map (eventDeliveries env w)).flatten, true) =
        (((e :: rest).map (eventDeliveries env w)).flatten, true)
      rw [List.map_cons, List.flatten_cons, hds]

/- Claim theorems. -/

/-- C1: for every input label, `estimateCalories` first normalizes it
(lowercase then trim); if the normalized label is a key of the calorie
table, it returns exactly that table value with `foodName` equal to the
normalized label, regardless of the keyword rule list (so without
consulting the keyword rules). -/
theorem c1_exact_lookup_bypasses_rules (rules : List KeywordPair)
    (raw : String) (v : Nat) (h : tableLookup (jsNormalize raw) = some v) :
    estimateCaloriesWith rules raw = ⟨jsNormalize raw, v, "kcal"⟩ := by
  simp only [estimateCaloriesWith]
  rw [h]

/-- Witness for C1 at the label "  Fried Chicken " (normalizes to the table
key "fried chicken", value 320), with the calorie.ts rule list. -/
theorem c1_witness :
    estimateCaloriesWith keywordToFood "  Fried Chicken " =
      ⟨jsNormalize "  Fried Chicken ", 320, "kcal"⟩ :=
  c1_exact_lookup_bypasses_rules keywordToFood "  Fried Chicken " 320 (by decide)

/-- C5: for every label with no exact table match whose normalized form is
matched by some keyword rule, `estimateCalories` resolves to the first
matching rule in declared order (`List.find?`), sets `foodName` to the
canonical food of that rule, and returns the table value of that food — the 200-kcal
default is never used because every canonical food of a rule is a table key. -/
theorem c5_first_keyword_rule_wins (raw : String) (pair : KeywordPair)
    (h1 : tableLookup (jsNormalize raw) = none)
    (h2 : keywordToFood.find? (keywordHit (jsNormalize raw)) = some pair) :
    ∃ v, tableLookup pair.food = some v ∧
      estimateCalories raw = ⟨pair.food, v, "kcal"⟩ := by
  have hmem : pair ∈ keywordToFood := List.mem_of_find?_eq_some h2
  have hall : ∀ p ∈ keywordToFood, (tableLookup p.food).isSome = true := by decide
  rcases Option.isSome_iff_exists.mp (hall pair hmem) with ⟨v, hv⟩
  refine ⟨v, hv, ?_⟩
  unfold estimateCalories
  simp only [estimateCaloriesWith]
  rw [h1, h2]
  simp [hv]

/-- Witness for C5 at the label "spicy ramen" (no exact table entry; first
matching rule is the noodle rule, canonical food "noodles", 250 kcal). -/
theorem c5_witness :
    ∃ v, tableLookup (⟨["noodle", "spaghetti", "ramen", "udon"], "noodles"⟩ :
        KeywordPair).food = some v ∧
      estimateCalories "spicy ramen" =
        ⟨(⟨["noodle", "spaghetti", "ramen", "udon"], "noodles"⟩ : KeywordPair).food,
          v, "kcal"⟩ :=
  c5_first_keyword_rule_wins "spicy ramen"
    ⟨["noodle", "spaghetti", "ramen", "udon"], "noodles"⟩ (by decide) (by decide)

/-- C6: `estimateCalories` is a total Lean function (it never fails by
construction), and for every empty or whitespace-only label it returns
exactly `{foodName := "food", estimatedCalories := 200, unit := "kcal"}`. -/
theorem c6_whitespace_label_default (raw : String)
    (h : ∀ c ∈ raw.data, isWsChar c = true) :
    estimateCalories raw = ⟨"food", 200, "kcal"⟩ :=
  estimate_of_norm_empty raw (jsNormalize_of_all_ws raw h)

/-- Witness for C6 at the whitespace-only label " ". -/
theorem c6_witness : estimateCalories " " = ⟨"food", 200, "kcal"⟩ :=
  c6_whitespace_label_default " " (by decide)

/-- Counterexample to C7 as stated: the label "Tofu" matches no table entry
and no keyword, yet the returned `foodName` is the normalized "tofu", not
the raw input "Tofu". -/
theorem c7_counterexample_foodname_not_raw :
    (estimateCalories "Tofu").foodName = "tofu" ∧ ("tofu" : String) ≠ "Tofu" := by
  constructor
  · rfl
  · decide

/-- C7 amended: for every non-empty label matching neither a table entry
nor any keyword rule, the returned `foodName` is the NORMALIZED input label
(lowercased and trimmed), not the raw input. -/
theorem c7_amended_foodname_is_normalized (raw : String)
    (h1 : tableLookup (jsNormalize raw) = none)
    (h2 : keywordToFood.find? (keywordHit (jsNormalize raw)) = none)
    (h3 : jsNormalize raw ≠ "") :
    estimateCalories raw = ⟨jsNormalize raw, 200, "kcal"⟩ := by
  unfold estimateCalories
  simp only [estimateCaloriesWith]
  rw [h1, h2]
  simp [h3]

/-- Witness for C7 (amended) at the label "Tofu". -/
theorem c7_witness :
    estimateCalories "Tofu" = ⟨jsNormalize "Tofu", 200, "kcal"⟩ :=
  c7_amended_foodname_is_normalized "Tofu" (by decide) (by decide) (by decide)

/-- C3: none of the three Recognition Backend Adapter variants propagates
an exception to its caller, for any environment, image buffer, or network
outcome (failure, non-2xx, or malformed body included): each evaluates to
`Except.ok` carrying either a recognition result or `null`. -/
theorem c3_adapters_never_throw (env : Env) (imageBuffer : Buffer)
    (h1 h2 : HFNet) (g : GNet) :
    (∃ r, recognize_part002 env imageBuffer h1 = Except.ok r) ∧
    (∃ r, recognize_part001 env imageBuffer h2 = Except.ok r) ∧
    (∃ r, recognize_part000 imageBuffer g = Except.ok r) := by
  refine ⟨?_, ?_, ?_⟩
  · unfold recognize_part002
    by_cases hk : (!(jsTruthyStr env.hfApiKey)) = true
    · rw [if_pos hk]
      exact ⟨none, rfl⟩
    · rw [if_neg hk]
      simp only [Bool.or_true, if_pos]
      exact ⟨some ⟨"ramen noodles", mkRat 85 100⟩, rfl⟩
  · unfold recognize_part001
    by_cases hk : (!(jsTruthyStr env.hfApiKey)) = true
    · rw [if_pos hk]
      exact ⟨none, rfl⟩
    · rw [if_neg hk]
      cases hx : part001_try h2 with
      | ok v => exact ⟨v, rfl⟩
      | error u => exact ⟨some ⟨"unknown food", mkRat 1 2⟩, rfl⟩
  · unfold recognize_part000
    cases hx : part000_try imageBuffer g with
    | ok v => exact ⟨v, rfl⟩
    | error u => exact ⟨part000_catch imageBuffer, rfl⟩

/-- C4: when the adapter reports `{label: "ramen noodles", score: 0.85}`
(as the webhook.ts test mode does), the delivered push message carries food
name "noodles" (the canonical food after keyword mapping), calorie figure
250, and confidence rendered "85.0%", all of which occur in the final
message text. -/
theorem c4_ramen_noodles_pipeline_message :
    recognizeFoodFromImage_api ⟨some "key", some "true"⟩ [] =
      some ⟨"ramen noodles", mkRat 85 100⟩ ∧
    estimateCaloriesApi "ramen noodles" = ⟨"noodles", 250, "kcal"⟩ ∧
    backgroundImage ⟨some "key", some "true"⟩
      ⟨fun _ _ => true, fun _ _ => true, fun _ => some []⟩
      ⟨"message", "image", "tok", "", "m1", some "U"⟩ =
      [Sent.push "U" (resultText ⟨"noodles", 250, "kcal"⟩ (mkRat 85 100))] ∧
    strIncludes (resultText ⟨"noodles", 250, "kcal"⟩ (mkRat 85 100)) "noodles" = true ∧
    strIncludes (resultText ⟨"noodles", 250, "kcal"⟩ (mkRat 85 100)) "250" = true ∧
    strIncludes (resultText ⟨"noodles", 250, "kcal"⟩ (mkRat 85 100)) "85.0%" = true := by
  refine ⟨by decide, by decide, ?_, by decide, by decide, by decide⟩
  rfl

/-- C8: in the part_000 variant, when the remote call fails, the fallback
result is `fallbackFoodOptions[⌊(byteLength % 100000) / 10000⌋ % 5]` — a
fixed dish list with a fixed placeholder confidence per option — so it is
determined solely by the byte length of the buffer: equal-length buffers yield
identical fallback results. -/
theorem c8_fallback_by_byte_length (a b : Buffer) :
    recognize_part000 a GNet.throw =
      Except.ok (some (fallbackFoodOptions.getD
        (((List.length a % 100000) / 10000) % fallbackFoodOptions.length)
        ⟨"ramen noodles", mkRat 85 100⟩)) ∧
    (List.length a = List.length b →
      recognize_part000 a GNet.throw = recognize_part000 b GNet.throw) := by
  constructor
  · rfl
  · intro h
    unfold recognize_part000 part000_try part000_catch sizeIndex
    rw [show a.length = b.length from h]

/-- Witness for C8: two distinct three-byte buffers give the same fallback. -/
theorem c8_witness :
    (recognize_part000 [0, 1, 2] GNet.throw =
      Except.ok (some (fallbackFoodOptions.getD
        (((List.length ([0, 1, 2] : Buffer) % 100000) / 10000) %
          fallbackFoodOptions.length)
        ⟨"ramen noodles", mkRat 85 100⟩))) ∧
    recognize_part000 [0, 1, 2] GNet.throw = recognize_part000 [7, 8, 9] GNet.throw :=
  ⟨(c8_fallback_by_byte_length [0, 1, 2] [7, 8, 9]).1,
   (c8_fallback_by_byte_length [0, 1, 2] [7, 8, 9]).2 (by decide)⟩

/-- C10: in the part_002 variant, whenever `HUGGINGFACE_API_KEY` is set (to
a truthy string), `recognizeFoodFromImage` returns exactly
`{label: "ramen noodles", score: 0.85}` for every image buffer, every
`VISION_TEST_MODE` value and every network outcome — the `|| true` forces
the test-mode branch, so the real Hugging Face call is unreachable. -/
theorem c10_part002_forced_test_mode (env : Env) (imageBuffer : Buffer)
    (net : HFNet) (h : jsTruthyStr env.hfApiKey = true) :
    recognize_part002 env imageBuffer net =
      Except.ok (some ⟨"ramen noodles", mkRat 85 100⟩) := by
  unfold recognize_part002
  rw [h]
  simp

/-- Witness for C10: a set key, an arbitrary buffer, and a failing network
still produce the fixed test result. -/
theorem c10_witness :
    recognize_part002 ⟨some "key", none⟩ [5, 6] HFNet.throw =
      Except.ok (some ⟨"ramen noodles", mkRat 85 100⟩) :=
  c10_part002_forced_test_mode ⟨some "key", none⟩ [5, 6] HFNet.throw (by decide)

/-- Counterexample to C9 as stated: with the key set and test mode off, an
image event with known sender "U" whose download fails ends with the
download-failure push, not the "could not recognize" push. -/
theorem c9_counterexample_download_failure :
    backgroundImage ⟨some "key", none⟩
      ⟨fun _ _ => true, fun _ _ => true, fun _ => none⟩
      ⟨"message", "image", "tok", "", "m1", some "U"⟩ =
      [Sent.push "U" downloadFailText] ∧
    downloadFailText ≠ cannotRecognizeText := by
  constructor
  · rfl
  · decide

/-- C9 amended: in the webhook.ts variant, whenever `HUGGINGFACE_API_KEY`
is set (truthy) and `VISION_TEST_MODE` is not the string "true",
`recognizeFoodFromImage` returns `null` for every buffer; consequently an
image event with a known sender never yields a calorie-estimate push — it
delivers nothing (a failed push), the download-failure message, or the
"could not recognize" message (the latter whenever the download and the
push succeed). -/
theorem c9_amended_null_recognition_no_estimate (env : Env) (w : World)
    (e : RecEvent) (uid : String)
    (hk : jsTruthyStr env.hfApiKey = true)
    (hv : env.visionTestMode ≠ some "true")
    (hu : e.userId = some uid) :
    (∀ imageBuffer : Buffer, recognizeFoodFromImage_api env imageBuffer = none) ∧
    (backgroundImage env w e = [] ∨
     backgroundImage env w e = [Sent.push uid downloadFailText] ∨
     backgroundImage env w e = [Sent.push uid cannotRecognizeText]) := by
  have hrec : ∀ imageBuffer : Buffer,
      recognizeFoodFromImage_api env imageBuffer = none := by
    intro imageBuffer
    unfold recognizeFoodFromImage_api
    rw [hk]
    simp [hv]
  refine ⟨hrec, ?_⟩
  cases hd : w.download e.messageId with
  | none =>
    by_cases hp : w.pushSucceeds uid downloadFailText = true
    · refine Or.inr (Or.inl ?_)
      simp [backgroundImage, hu, hd, hp]
    · refine Or.inl ?_
      simp [backgroundImage, hu, hd, hp]
  | some imageBuffer =>
    by_cases hp : w.pushSucceeds uid cannotRecognizeText = true
    · refine Or.inr (Or.inr ?_)
      simp [backgroundImage, hu, hd, hrec imageBuffer, hp]
    · refine Or.inl ?_
      simp [backgroundImage, hu, hd, hrec imageBuffer, hp]

/-- Witness for C9 (amended), at a concrete environment (key set, test mode
unset), a world that downloads successfully and delivers pushes, and an
image event from sender "U". -/
theorem c9_witness :
    backgroundImage ⟨some "key", none⟩
      ⟨fun _ _ => true, fun _ _ => true, fun _ => some [9]⟩
      ⟨"message", "image", "tok", "", "m1", some "U"⟩ = [] ∨
    backgroundImage ⟨some "key", none⟩
      ⟨fun _ _ => true, fun _ _ => true, fun _ => some [9]⟩
      ⟨"message", "image", "tok", "", "m1", some "U"⟩ =
      [Sent.push "U" downloadFailText] ∨
    backgroundImage ⟨some "key", none⟩
      ⟨fun _ _ => true, fun _ _ => true, fun _ => some [9]⟩
      ⟨"message", "image", "tok", "", "m1", some "U"⟩ =
      [Sent.push "U" cannotRecognizeText] :=
  (c9_amended_null_recognition_no_estimate ⟨some "key", none⟩
    ⟨fun _ _ => true, fun _ _ => true, fun _ => some [9]⟩
    ⟨"message", "image", "tok", "", "m1", some "U"⟩ "U"
    (by decide) (by decide) rfl).2

/-- Counterexample to C2 as stated: in a two-event batch where the
synchronous reply of event 1 fails, event 2 is never processed (no deliveries at all)
and the webhook HTTP response is 500, not 200. -/
theorem c2_counterexample_reply_failure_aborts_batch :
    webhookPost ⟨none, none⟩
      ⟨fun tok _ => tok != "tok1", fun _ _ => true, fun _ => none⟩
      [⟨"message", "text", "tok1", "hello", "m1", none⟩,
       ⟨"message", "text", "tok2", "world", "m2", none⟩] = (500, []) ∧
    (500 : Nat) ≠ 200 := by
  constructor
  · rfl
  · decide

/-- C2 amended: failures inside the detached background pipeline of an image
event (download, recognition, push — everything the oracle world `w` may
fail) are recovered within that event: whenever each synchronous
reply succeeds, the batch completes, the HTTP response is 200 for any world,
and the delivered messages are the per-event deliveries concatenated, each
depending only on its own event. (A failed synchronous reply, by the
counterexample, instead aborts the remaining events with a 500 response.) -/
theorem c2_amended_background_failures_contained (env : Env) (w : World)
    (events : List RecEvent)
    (h : ∀ e ∈ events, syncOk env w e = true) :
    webhookPost env w events =
      (200, (events.map (eventDeliveries env w)).flatten) := by
  unfold webhookPost
  rw [processEvents_of_all_syncOk env w events h]
  rfl

/-- Witness for C2 (amended): a concrete two-event batch (one text, one
image whose download fails) under succeeding replies returns 200 with the
per-event deliveries. -/
theorem c2_witness :
    webhookPost ⟨none, none⟩ ⟨fun _ _ => true, fun _ _ => true, fun _ => none⟩
      [⟨"message", "text", "tok1", "hello", "m1", none⟩,
       ⟨"message", "image", "tok2", "", "m2", some "U"⟩] =
      (200, ([⟨"message", "text", "tok1", "hello", "m1", none⟩,
              ⟨"message", "image", "tok2", "", "m2", some "U"⟩].map
        (eventDeliveries ⟨none, none⟩
          ⟨fun _ _ => true, fun _ _ => true, fun _ => none⟩)).flatten) :=
  c2_amended_background_failures_contained ⟨none, none⟩
    ⟨fun _ _ => true, fun _ _ => true, fun _ => none⟩
    [⟨"message", "text", "tok1", "hello", "m1", none⟩,
     ⟨"message", "image", "tok2", "", "m2", some "U"⟩]
    (by decide)
